import Mathlib

/-!
Shallow embedding of the Three.js foundation-scene tutorial repository.

The embedded code is:
* `TypedGeometryFactory.createGeometry` and `TypedGeometryFactory.createMaterial`
  (the typed geometry/material factories);
* the `FoundationScene` class: configuration merge, `createCamera`, `createScene`,
  `createRenderer`, the constructor-time setup, `addObject`, `removeObject`,
  `addAnimation`, `removeAnimation`, `startAnimation`, `stopAnimation`, `dispose`.

Modelling conventions:
* numbers are `Rat` (the scripts only ever use exact decimal literals);
* JS `Map` objects are association lists with first-match lookup, in-place
  overwrite on `set`, and removal of the matching entry on `delete`;
* `THREE.Vector3` references are indices into an explicit vector store
  (`List Vec3`), so that `position.copy` (fresh slot, value copied) is
  distinguishable from reference aliasing;
* the browser's `requestAnimationFrame` / `cancelAnimationFrame` pair is a
  `FrameScheduler` recording the pending frame handles;
* animation callbacks `(deltaTime) => void` mutate caller-owned state only, so
  the manager state is polymorphic in the stored callback type `κ`.
-/

namespace ThreeFoundation

/-- A `THREE.Vector3` value. -/
structure Vec3 where
  x : Rat
  y : Rat
  z : Rat
deriving DecidableEq, Repr

/-- A scene-graph node (`THREE.Object3D`), identified by its intrinsic `uuid`.
Three.js guarantees distinct objects carry distinct uuids. -/
structure Object3D where
  uuid : String
deriving DecidableEq, Repr

/-- First-match lookup, like `Map.prototype.get`. -/
def mapGet {α : Type} (m : List (String × α)) (k : String) : Option α :=
  match m with
  | [] => none
  | (k', v) :: rest => if k' = k then some v else mapGet rest k

/-- Embeds `Map.prototype.set`: overwrite in place when the key exists, append otherwise. -/
def mapSet {α : Type} (m : List (String × α)) (k : String) (v : α) : List (String × α) :=
  match m with
  | [] => [(k, v)]
  | (k', v') :: rest => if k' = k then (k', v) :: rest else (k', v') :: mapSet rest k v

/-- Embeds `Map.prototype.delete`: remove the entry with the given key. -/
def mapDelete {α : Type} (m : List (String × α)) (k : String) : List (String × α) :=
  match m with
  | [] => []
  | (k', v') :: rest => if k' = k then rest else (k', v') :: mapDelete rest k

/-- Embeds `THREE.Object3D.add` on a scene: an object already attached is re-attached
(moved), never duplicated; a new object is appended to the children. -/
def sceneAdd (children : List Object3D) (o : Object3D) : List Object3D :=
  children.erase o ++ [o]

/- ===================================================================
   TypedGeometryFactory (geometry/material factory with exhaustive switch)
   =================================================================== -/

/-- The geometry instances producible by `TypedGeometryFactory.createGeometry`. -/
inductive Geometry where
  | box (width height depth : Rat)
  | sphere (radius widthSegments heightSegments : Rat)
  | cone (radius height radialSegments : Rat)
  | cylinder (radiusTop radiusBottom height radialSegments : Rat)
  | torus (radius tube radialSegments tublarSegments : Rat)
  | plane (width height : Rat)
deriving DecidableEq, Repr

/-- The runtime shape of the `config` argument of `createGeometry`: a record of
optional numeric fields, of which each `case` reads its own subset (the TS
types narrow statically, but at runtime every case sees one duck-typed object). -/
structure GeometryConfigData where
  width : Option Rat := none
  height : Option Rat := none
  depth : Option Rat := none
  radius : Option Rat := none
  widthSegments : Option Rat := none
  heightSegments : Option Rat := none
  radialSegments : Option Rat := none
  radiusTop : Option Rat := none
  radiusBottom : Option Rat := none
  tube : Option Rat := none
  tublarSegments : Option Rat := none
deriving DecidableEq, Repr

/-- Embeds `TypedGeometryFactory.createGeometry`: switch on the `type` tag, `?? d`
defaults on every parameter, `default` case throws
`Unsupported geometry type: <type>`. -/
def createGeometry (type : String) (config : GeometryConfigData) : Except String Geometry :=
  if type = "box" then
    .ok (.box (config.width.getD 1) (config.height.getD 1) (config.depth.getD 1))
  else if type = "sphere" then
    .ok (.sphere (config.radius.getD 1) (config.widthSegments.getD 32)
      (config.heightSegments.getD 16))
  else if type = "cone" then
    .ok (.cone (config.radius.getD 1) (config.height.getD 1) (config.radialSegments.getD 8))
  else if type = "cylinder" then
    .ok (.cylinder (config.radiusTop.getD 1) (config.radiusBottom.getD 1)
      (config.height.getD 1) (config.radialSegments.getD 8))
  else if type = "torus" then
    .ok (.torus (config.radius.getD 1) (config.tube.getD (2/5))
      (config.radialSegments.getD 8) (config.tublarSegments.getD 8))
  else if type = "plane" then
    .ok (.plane (config.width.getD 1) (config.height.getD 1))
  else
    .error ("Unsupported geometry type: " ++ type)

/-- The material instances producible by `TypedGeometryFactory.createMaterial`.
Colors are the hex integers the source passes to the material constructors.
(The source spells the lambert emissive field `emssive`.) -/
inductive Material where
  | basic (color : Nat) (wireframe : Bool)
  | lambert (color emssive : Nat)
  | phong (color specular : Nat) (shininess : Rat)
  | standard (color : Nat) (roughness metalness : Rat)
deriving DecidableEq, Repr

/-- Runtime shape of the `config` argument of `createMaterial`. -/
structure MaterialConfigData where
  color : Option Nat := none
  wireframe : Option Bool := none
  emssive : Option Nat := none
  specular : Option Nat := none
  shininess : Option Rat := none
  roughness : Option Rat := none
  metalness : Option Rat := none
deriving DecidableEq, Repr

/-- Embeds `TypedGeometryFactory.createMaterial`: switch on the `type` tag, `?? d`
defaults, `default` case throws `Unsupported material type : <type>`. -/
def createMaterial (type : String) (config : MaterialConfigData) : Except String Material :=
  if type = "basic" then
    .ok (.basic (config.color.getD 0xffffff) (config.wireframe.getD false))
  else if type = "lambert" then
    .ok (.lambert (config.color.getD 0xffffff) (config.emssive.getD 0x000000))
  else if type = "phong" then
    .ok (.phong (config.color.getD 0xffffff) (config.specular.getD 0x111111)
      (config.shininess.getD 30))
  else if type = "standard" then
    .ok (.standard (config.color.getD 0xffffff) (config.roughness.getD (1/2))
      (config.metalness.getD (1/2)))
  else
    .error ("Unsupported material type : " ++ type)

/- ===================================================================
   FoundationScene: configuration records and resource factories
   =================================================================== -/

/-- Embeds `CameraConfig`. The `type` tag is kept as a raw string: TS erases the
`'perspective' | 'orthographic'` union at runtime, and `createCamera`
dispatches on the string value. `positionIdx` is the index of the config's
`THREE.Vector3` position in the vector store. -/
structure CameraConfig where
  type : String
  fov : Option Rat
  aspect : Option Rat
  near : Rat
  far : Rat
  positionIdx : Nat
  target : Option Vec3
deriving DecidableEq, Repr

/-- The shadow-map section of `RendererConfig`; the `type` constant
(`THREE.ShadowMapType`) is an opaque numeric enum value. -/
structure ShadowMapConfig where
  enabled : Bool
  type : Nat
deriving DecidableEq, Repr

/-- Embeds `RendererConfig`. -/
structure RendererConfig where
  antialias : Bool
  alpha : Bool
  shadowMap : ShadowMapConfig
deriving DecidableEq, Repr

/-- The fog section of `SceneConfig`. -/
structure FogConfig where
  type : String
  color : Nat
  near : Option Rat
  far : Option Rat
  density : Option Rat
deriving DecidableEq, Repr

/-- Embeds `SceneConfig`: optional background color, optional fog descriptor. -/
structure SceneConfig where
  background : Option Nat
  fog : Option FogConfig
deriving DecidableEq, Repr

/-- Embeds `FoundationSceneConfig`: the merged configuration stored on the manager.
`container` is a reference to a host DOM element (abstract id), `none` means
`document.body`. -/
structure FoundationSceneConfig where
  camera : CameraConfig
  renderer : RendererConfig
  scene : SceneConfig
  container : Option Nat
  autoResize : Bool
  stats : Option Bool
deriving DecidableEq, Repr

/-- Embeds `Partial<FoundationSceneConfig>` as the constructor receives it: each
top-level section present or absent. -/
structure PartialFoundationSceneConfig where
  camera : Option CameraConfig := none
  renderer : Option RendererConfig := none
  scene : Option SceneConfig := none
  container : Option Nat := none
  autoResize : Option Bool := none
  stats : Option Bool := none
deriving DecidableEq, Repr

/-- Ambient browser state read by the constructor (`window.innerWidth`,
`window.innerHeight`, `window.devicePixelRatio`). -/
structure WindowState where
  innerWidth : Rat
  innerHeight : Rat
  devicePixels : Rat
deriving DecidableEq, Repr

/-- Embeds `FoundationScene.mergeConfig`: spread of the top level, then a one-level
spread per section (camera, renderer, scene) — a present user section, being a
complete record at the type level, wins wholesale. -/
def mergeConfig (defaultConfig : FoundationSceneConfig)
    (userConfig : PartialFoundationSceneConfig) : FoundationSceneConfig :=
  { camera := userConfig.camera.getD defaultConfig.camera
    renderer := userConfig.renderer.getD defaultConfig.renderer
    scene := userConfig.scene.getD defaultConfig.scene
    container := match userConfig.container with
      | some c => some c
      | none => defaultConfig.container
    autoResize := userConfig.autoResize.getD defaultConfig.autoResize
    stats := match userConfig.stats with
      | some b => some b
      | none => defaultConfig.stats }

/-- Embeds `DEFAULT_CONFIG` from `scene-config.ts`; its `position` vector
`new THREE.Vector3(0,0,5)` lives at index 0 of `defaultStore`. The aspect
ratio reads the ambient window size. -/
def DEFAULT_CONFIG (w : WindowState) : FoundationSceneConfig :=
  { camera :=
      { type := "perspective"
        fov := some 75
        aspect := some (w.innerWidth / w.innerHeight)
        near := 1/10
        far := 1000
        positionIdx := 0
        target := none }
    renderer :=
      { antialias := true
        alpha := false
        shadowMap := { enabled := true, type := 2 } }  -- THREE.PCFSoftShadowMap = 2
    scene := { background := some 0x222222, fog := none }
    container := none
    autoResize := true
    stats := some false }

/-- The vector store holding `DEFAULT_CONFIG`'s position vector. -/
def defaultStore : List Vec3 := [⟨0, 0, 5⟩]

/-- Store lookup; a dangling index reads as the zero vector (never exercised
for indices produced by the embedded code). -/
def storeGet (store : List Vec3) (i : Nat) : Vec3 :=
  store.getD i ⟨0, 0, 0⟩

/-- The projection data of the constructed camera. -/
inductive CameraProjection where
  | perspective (fov aspect near far : Rat)
  | orthographic (left right top bottom near far : Rat)
deriving DecidableEq, Repr

/-- A constructed `THREE.Camera`: its projection, the store slot holding its
own position vector, and the look-at target (set by `lookAt`, if any). -/
structure Camera where
  projection : CameraProjection
  positionIdx : Nat
  lookTarget : Option Vec3
deriving DecidableEq, Repr

/-- Embeds `FoundationScene.createCamera`: `'perspective'` builds a
`PerspectiveCamera` (Three.js defaults `fov = 50`, `aspect = 1` when the
optional fields are absent); every other tag takes the `else` branch and
builds `OrthographicCamera(-1, 1, 1, -1, near, far)`. Then
`camera.position.copy(config.position)` writes the config vector's value into
the camera's own, freshly-allocated position slot, and `lookAt` is applied
when a target is present. -/
def createCamera (store : List Vec3) (config : CameraConfig) : Camera × List Vec3 :=
  let projection :=
    if config.type = "perspective" then
      CameraProjection.perspective (config.fov.getD 50) (config.aspect.getD 1)
        config.near config.far
    else
      CameraProjection.orthographic (-1) 1 1 (-1) config.near config.far
  let posValue := storeGet store config.positionIdx
  ({ projection := projection
     positionIdx := store.length
     lookTarget := config.target },
   store ++ [posValue])

/-- A constructed `THREE.Scene`: background, fog (color, near, far — Three.js
defaults 1 and 1000), and the children list. -/
structure SceneState where
  background : Option Nat
  fog : Option (Nat × Rat × Rat)
  children : List Object3D
deriving DecidableEq, Repr

/-- Embeds `FoundationScene.createScene`: fresh scene, optional background, and a
linear `THREE.Fog(color, near, far)` whenever any fog is configured. -/
def createScene (config : SceneConfig) : SceneState :=
  { background := config.background
    fog := config.fog.map (fun f => (f.color, f.near.getD 1, f.far.getD 1000))
    children := [] }

/-- A constructed `THREE.WebGLRenderer` as far as the manager observes it. -/
structure RendererState where
  antialias : Bool
  alpha : Bool
  pixelDensity : Rat
  width : Rat
  height : Rat
  shadowMapEnabled : Bool
  shadowMapType : Nat
  disposed : Bool
deriving DecidableEq, Repr

/-- Embeds `FoundationScene.createRenderer`: antialias/alpha flags, device pixel
ratio, size set to the viewport (set twice in the source, same value), and
the shadow-map settings. -/
def createRenderer (w : WindowState) (config : RendererConfig) : RendererState :=
  { antialias := config.antialias
    alpha := config.alpha
    pixelDensity := w.devicePixels
    width := w.innerWidth
    height := w.innerHeight
    shadowMapEnabled := config.shadowMap.enabled
    shadowMapType := config.shadowMap.type
    disposed := false }

/- ===================================================================
   FoundationScene: state and lifecycle operations
   =================================================================== -/

/-- Embeds `THREE.Clock` (with `autoStart`): `started` is its `running` flag,
`oldTime` the timestamp of the previous `getDelta`. -/
structure ClockState where
  started : Bool
  oldTime : Rat
deriving DecidableEq, Repr

/-- Embeds `THREE.Clock.getDelta` at ambient time `now` (milliseconds): the first
call starts the clock and returns 0; later calls return the elapsed seconds
since the previous call. -/
def clockGetDelta (c : ClockState) (now : Rat) : ClockState × Rat :=
  if c.started then
    ({ started := true, oldTime := now }, (now - c.oldTime) / 1000)
  else
    ({ started := true, oldTime := now }, 0)

/-- The host's frame scheduler: `requestAnimationFrame` hands out increasing
handles and queues the callback; `cancelAnimationFrame` dequeues it. -/
structure FrameScheduler where
  nextHandle : Nat
  pending : List Nat
deriving DecidableEq, Repr

/-- Embeds `requestAnimationFrame`: returns a fresh handle and schedules one frame
callback under it. -/
def requestFrame (sch : FrameScheduler) : Nat × FrameScheduler :=
  (sch.nextHandle,
   { nextHandle := sch.nextHandle + 1, pending := sch.pending ++ [sch.nextHandle] })

/-- Embeds `cancelAnimationFrame`: unschedules the frame with the given handle. -/
def cancelFrame (sch : FrameScheduler) (h : Nat) : FrameScheduler :=
  { sch with pending := sch.pending.erase h }

/-- The `FoundationScene` instance state, polymorphic in the type `κ` of the
stored per-frame callbacks (`(deltaTime: number) => void` closures, whose
effects live entirely in caller-owned state).  Field-by-field image of the
class: `animationId`, `clock`, `animatedObjects`, `config`, the
initialized/disposed flags (`isInit` embeds the source's initialization flag),
`managedObjects`, and the resize handler; plus the observable state of the
owned camera/scene/renderer and of the DOM attachment. -/
structure FoundationScene (κ : Type) where
  camera : Camera
  scene : SceneState
  renderer : RendererState
  animationId : Option Nat
  clock : ClockState
  animatedObjects : List (String × κ)
  config : FoundationSceneConfig
  isInit : Bool
  isDisposed : Bool
  managedObjects : List (String × Object3D)
  resizeHandlerSet : Bool
  domAttached : Bool
  resizeListenerOn : Bool
deriving DecidableEq, Repr

/-- The `FoundationScene` constructor: merge the user configuration over
`DEFAULT_CONFIG`, build camera/scene/renderer, then the constructor-time
setup (attach the canvas to the container, install the resize handler iff
`autoResize`, mark initialized). Returns the instance and the grown vector
store. -/
def newFoundationScene (κ : Type) (w : WindowState) (store : List Vec3)
    (userConfig : PartialFoundationSceneConfig) : FoundationScene κ × List Vec3 :=
  let config := mergeConfig (DEFAULT_CONFIG w) userConfig
  let built := createCamera store config.camera
  ({ camera := built.1
     scene := createScene config.scene
     renderer := createRenderer w config.renderer
     animationId := none
     clock := { started := false, oldTime := 0 }
     animatedObjects := []
     config := config
     isInit := true
     isDisposed := false
     managedObjects := []
     resizeHandlerSet := config.autoResize
     domAttached := true
     resizeListenerOn := config.autoResize },
   built.2)

/-- Embeds `FoundationScene.addObject`: `const objectId = id || object.uuid` (JS
truthiness: an **empty** string also falls back to the uuid), add the node to
the scene graph, record it in the registry, return the resolved id. There is
no disposed-state guard. -/
def addObject {κ : Type} (s : FoundationScene κ) (object : Object3D)
    (id : Option String) : FoundationScene κ × String :=
  let objectId :=
    match id with
    | some i => if i = "" then object.uuid else i
    | none => object.uuid
  ({ s with
      scene := { s.scene with children := sceneAdd s.scene.children object }
      managedObjects := mapSet s.managedObjects objectId object },
   objectId)

/-- Embeds `FoundationScene.removeObject`: when the id is registered, detach the node
from the scene graph, drop the registry entry and return `true`; otherwise
return `false` without touching anything. -/
def removeObject {κ : Type} (s : FoundationScene κ) (id : String) :
    FoundationScene κ × Bool :=
  match mapGet s.managedObjects id with
  | some object =>
      ({ s with
          scene := { s.scene with children := s.scene.children.erase object }
          managedObjects := mapDelete s.managedObjects id },
       true)
  | none => (s, false)

/-- Embeds `FoundationScene.addAnimation`: register/overwrite a per-frame callback. -/
def addAnimation {κ : Type} (s : FoundationScene κ) (id : String) (animationFn : κ) :
    FoundationScene κ :=
  { s with animatedObjects := mapSet s.animatedObjects id animationFn }

/-- Embeds `FoundationScene.removeAnimation`: unregister a callback; no-op if absent. -/
def removeAnimation {κ : Type} (s : FoundationScene κ) (id : String) :
    FoundationScene κ :=
  { s with animatedObjects := mapDelete s.animatedObjects id }

/-- Embeds `FoundationScene.startAnimation`: guarded only by `animationId !== null`.
When the guard passes, the first `animate()` runs synchronously: it schedules
the next frame via `requestAnimationFrame` (storing the handle in
`animationId`), advances the clock, invokes every registered callback with
the delta (caller-state effects only), and renders. There is **no**
disposed-state guard. -/
def startAnimation {κ : Type} (s : FoundationScene κ) (sch : FrameScheduler)
    (now : Rat) : FoundationScene κ × FrameScheduler :=
  if s.animationId.isSome then (s, sch)
  else
    let req := requestFrame sch
    let clocked := clockGetDelta s.clock now
    ({ s with animationId := some req.1, clock := clocked.1 }, req.2)

/-- Embeds `FoundationScene.stopAnimation`: cancel the pending frame and clear the
handle; no-op when no loop is active. -/
def stopAnimation {κ : Type} (s : FoundationScene κ) (sch : FrameScheduler) :
    FoundationScene κ × FrameScheduler :=
  match s.animationId with
  | some h => ({ s with animationId := none }, cancelFrame sch h)
  | none => (s, sch)

/-- Embeds `FoundationScene.dispose`: no-op when already disposed; otherwise stop the
loop, detach every managed object from the scene graph, clear the object
registry, dispose the renderer, detach the canvas, remove the resize listener
if a handler was installed, and set the disposed flag. The animation-callback
map is **not** touched. -/
def dispose {κ : Type} (s : FoundationScene κ) (sch : FrameScheduler) :
    FoundationScene κ × FrameScheduler :=
  if s.isDisposed then (s, sch)
  else
    let stopped := stopAnimation s sch
    let s1 := stopped.1
    let children1 := s1.managedObjects.foldl (fun cs kv => cs.erase kv.2) s1.scene.children
    let s2 := { s1 with
      scene := { s1.scene with children := children1 }
      managedObjects := []
      renderer := { s1.renderer with disposed := true }
      domAttached := false
      resizeListenerOn := s1.resizeHandlerSet = false && s1.resizeListenerOn
      isDisposed := true }
    (s2, stopped.2)

/- ===================================================================
   Registry/scene-graph membership invariant and concrete states
   =================================================================== -/

/-- Registry-membership invariant: every node stored in the object registry is
attached to the scene graph. -/
def RegistryInv {κ : Type} (s : FoundationScene κ) : Prop :=
  ∀ kv ∈ s.managedObjects, kv.2 ∈ s.scene.children

instance {κ : Type} (s : FoundationScene κ) : Decidable (RegistryInv s) :=
  List.decidableBAll _ s.managedObjects

/-- A concrete ambient window: 800×600 viewport, device pixel ratio 1. -/
def exWindow : WindowState := ⟨800, 600, 1⟩

/-- An empty frame scheduler. -/
def exSched0 : FrameScheduler := ⟨0, []⟩

/-- A freshly constructed manager (default configuration, callbacks stored as
`Nat` tokens). -/
def exScene0 : FoundationScene Nat :=
  (newFoundationScene Nat exWindow defaultStore {}).1

/-- A concrete scene-graph node. -/
def exCube : Object3D := ⟨"cube-uuid-1"⟩

/-- A second, distinct scene-graph node. -/
def exBall : Object3D := ⟨"ball-uuid-2"⟩

/-- The manager after `dispose()`. -/
def exDisposed : FoundationScene Nat := (dispose exScene0 exSched0).1

/-- The scheduler after `dispose()`. -/
def exSchedD : FrameScheduler := (dispose exScene0 exSched0).2

/-- A manager holding one registered animation callback `"spin"`. -/
def exWithAnim : FoundationScene Nat := addAnimation exScene0 "spin" 0

/-- A manager in which `exCube` is already attached (registered as `"a"`). -/
def exAttached : FoundationScene Nat := (addObject exScene0 exCube (some "a")).1

/-- A manager in which the single node `exCube` is registered under the two
identifiers `"a"` and `"b"` (the documented re-add hazard). -/
def exAliased : FoundationScene Nat :=
  (addObject (addObject exScene0 exCube (some "a")).1 exCube (some "b")).1

/-- A camera configuration whose `type` tag is not a recognized variant. -/
def exBogusCameraConfig : CameraConfig :=
  { type := "bogus", fov := some 75, aspect := some 1, near := 1/10, far := 1000
    positionIdx := 0, target := none }

/-- The complete perspective configuration of the spec's scenario:
fov 75, aspect 16/9, near 0.1, far 1000, position (0,0,5) (store slot 0),
target (0,0,0). -/
def exPerspectiveConfig : CameraConfig :=
  { type := "perspective", fov := some 75, aspect := some (16/9), near := 1/10
    far := 1000, positionIdx := 0, target := some ⟨0, 0, 0⟩ }

/-- Observation mirroring the source's `camera instanceof THREE.PerspectiveCamera`
check (used by the resize handler). -/
def CameraProjection.isPerspective : CameraProjection → Bool
  | .perspective _ _ _ _ => true
  | .orthographic _ _ _ _ _ _ => false

/- ===================================================================
   Association-list and scene-graph helper lemmas
   =================================================================== -/

theorem mapGet_mapSet_self {α : Type} (m : List (String × α)) (k : String) (v : α) :
    mapGet (mapSet m k v) k = some v := by
  induction m with
  | nil => simp [mapSet, mapGet]
  | cons hd tl ih =>
      obtain ⟨k', v'⟩ := hd
      by_cases h : k' = k
      · simp [mapSet, mapGet, h]
      · simp [mapSet, mapGet, h, ih]

theorem mem_of_mem_mapDelete {α : Type} {m : List (String × α)} {k : String}
    {kv : String × α} (h : kv ∈ mapDelete m k) : kv ∈ m := by
  induction m with
  | nil => simp [mapDelete] at h
  | cons hd tl ih =>
      obtain ⟨k', v'⟩ := hd
      by_cases hk : k' = k
      · simp [mapDelete, hk] at h
        exact List.mem_cons_of_mem _ h
      · simp [mapDelete, hk] at h
        rcases h with h | h
        · simp [h]
        · exact List.mem_cons_of_mem _ (ih h)

theorem mapGet_eq_some_mem {α : Type} {m : List (String × α)} {k : String} {v : α}
    (h : mapGet m k = some v) : (k, v) ∈ m := by
  induction m with
  | nil => simp [mapGet] at h
  | cons hd tl ih =>
      obtain ⟨k', v'⟩ := hd
      by_cases hk : k' = k
      · simp [mapGet, hk] at h
        rw [← hk, ← h]
        exact List.mem_cons_self _ _
      · simp [mapGet, hk] at h
        exact List.mem_cons_of_mem _ (ih h)

theorem key_ne_of_mem_mapDelete {α : Type} {m : List (String × α)} {k : String}
    (hnd : (m.map Prod.fst).Nodup) {kv : String × α} (h : kv ∈ mapDelete m k) :
    kv.1 ≠ k := by
  induction m with
  | nil => simp [mapDelete] at h
  | cons hd tl ih =>
      obtain ⟨k', v'⟩ := hd
      simp only [List.map_cons, List.nodup_cons] at hnd
      obtain ⟨hk', hnd'⟩ := hnd
      by_cases hk : k' = k
      · simp only [mapDelete, if_pos hk] at h
        intro hcontra
        apply hk'
        rw [hk, ← hcontra]
        exact List.mem_map_of_mem Prod.fst h
      · simp only [mapDelete, if_neg hk, List.mem_cons] at h
        rcases h with h | h
        · simp [h, hk]
        · exact ih hnd' h

theorem mem_mapSet_cases {α : Type} {m : List (String × α)} {k : String} {v : α}
    {kv : String × α} (h : kv ∈ mapSet m k v) : kv = (k, v) ∨ kv ∈ m := by
  induction m with
  | nil =>
      simp [mapSet] at h
      exact Or.inl h
  | cons hd tl ih =>
      obtain ⟨k', v'⟩ := hd
      by_cases hk : k' = k
      · simp only [mapSet, if_pos hk, List.mem_cons] at h
        rcases h with h | h
        · exact Or.inl (by simp [h, hk])
        · exact Or.inr (List.mem_cons_of_mem _ h)
      · simp only [mapSet, if_neg hk, List.mem_cons] at h
        rcases h with h | h
        · exact Or.inr (by simp [h])
        · rcases ih h with h2 | h2
          · exact Or.inl h2
          · exact Or.inr (List.mem_cons_of_mem _ h2)

theorem mem_sceneAdd_self (children : List Object3D) (o : Object3D) :
    o ∈ sceneAdd children o := by
  simp [sceneAdd]

theorem mem_sceneAdd_of_mem {children : List Object3D} {o o' : Object3D}
    (h : o' ∈ children) : o' ∈ sceneAdd children o := by
  by_cases he : o' = o
  · simp [sceneAdd, he]
  · simp only [sceneAdd, List.mem_append]
    exact Or.inl ((List.mem_erase_of_ne he).2 h)

theorem sceneAdd_of_not_mem {children : List Object3D} {o : Object3D}
    (h : o ∉ children) : sceneAdd children o = children ++ [o] := by
  simp [sceneAdd, List.erase_of_not_mem h]

theorem startAnimation_fields {κ : Type} (s : FoundationScene κ) (sch : FrameScheduler)
    (now : Rat) :
    (startAnimation s sch now).1.managedObjects = s.managedObjects ∧
    (startAnimation s sch now).1.scene = s.scene := by
  by_cases hA : s.animationId.isSome <;> simp [startAnimation, hA]

theorem stopAnimation_fields {κ : Type} (s : FoundationScene κ) (sch : FrameScheduler) :
    (stopAnimation s sch).1.managedObjects = s.managedObjects ∧
    (stopAnimation s sch).1.scene = s.scene := by
  cases hA : s.animationId <;> simp [stopAnimation, hA]

/- ===================================================================
   Claim theorems
   =================================================================== -/

/-- C1, counterexample: on the concrete disposed manager `exDisposed`,
`startAnimation` installs an active frame-loop handle (`animationId` becomes
`some 0`) and `addObject` changes the object registry — post-dispose
lifecycle calls are not no-ops. -/
theorem dispose_then_lifecycle_cex :
    exDisposed.isDisposed = true ∧
    (startAnimation exDisposed exSchedD 0).1.animationId = some 0 ∧
    (addObject exDisposed exCube none).1.managedObjects = [("cube-uuid-1", exCube)] ∧
    exDisposed.managedObjects = [] := by
  decide

/-- C1 (amended): after `dispose()`, `startAnimation` and `addObject` are not
guarded and do mutate the manager: for every disposed manager state,
`startAnimation` leaves the manager with an active frame-loop handle, and
`addObject` inserts the node into the scene graph and into the object
registry under the resolved identifier. -/
theorem startAnimation_addObject_after_dispose {κ : Type} (s : FoundationScene κ)
    (sch : FrameScheduler) (now : Rat) (obj : Object3D) (id : Option String)
    (_h : s.isDisposed = true) :
    ((startAnimation s sch now).1.animationId).isSome = true ∧
    mapGet (addObject s obj id).1.managedObjects (addObject s obj id).2 = some obj ∧
    obj ∈ (addObject s obj id).1.scene.children := by
  refine ⟨?_, ?_, ?_⟩
  · by_cases hA : s.animationId.isSome <;> simp [startAnimation, hA]
  · simp only [addObject]
    exact mapGet_mapSet_self _ _ _
  · simp only [addObject]
    exact mem_sceneAdd_self _ _

/-- Witness for `startAnimation_addObject_after_dispose` at the concrete
disposed manager. -/
theorem startAnimation_addObject_after_dispose_witness :
    exDisposed.isDisposed = true ∧
    (((startAnimation exDisposed exSchedD 0).1.animationId).isSome = true ∧
     mapGet (addObject exDisposed exCube none).1.managedObjects
       (addObject exDisposed exCube none).2 = some exCube ∧
     exCube ∈ (addObject exDisposed exCube none).1.scene.children) :=
  ⟨by decide, startAnimation_addObject_after_dispose exDisposed exSchedD 0 exCube none
    (by decide)⟩

/-- C2, counterexample: disposing the concrete manager that holds the
registered animation callback `"spin"` leaves the animation registry
non-empty — `dispose` never clears `animatedObjects`. -/
theorem dispose_animation_registry_cex :
    (dispose exWithAnim exSched0).1.isDisposed = true ∧
    (dispose exWithAnim exSched0).1.animatedObjects = [("spin", 0)] ∧
    ([("spin", (0 : Nat))] : List (String × Nat)) ≠ [] := by
  decide

/-- C2 (amended): `dispose()` leaves the animation registry exactly as it
was — an `AnimationCallback` entry's lifetime ends only at
`removeAnimation`, which deletes precisely its entry. -/
theorem dispose_leaves_animation_registry {κ : Type} (s : FoundationScene κ)
    (sch : FrameScheduler) (id : String) :
    (dispose s sch).1.animatedObjects = s.animatedObjects ∧
    (removeAnimation s id).animatedObjects = mapDelete s.animatedObjects id := by
  constructor
  · by_cases h : s.isDisposed
    · simp [dispose, h]
    · cases hA : s.animationId <;> simp [dispose, h, stopAnimation, hA]
  · rfl

/-- C3: re-adding under the reused identifier `"cube"` overwrites the registry
entry (it maps to the second node) while the scene graph retains both nodes. -/
theorem addObject_reuse_identifier {κ : Type} (s : FoundationScene κ)
    (n1 n2 : Object3D) (_h : n1 ≠ n2) :
    mapGet ((addObject (addObject s n1 (some "cube")).1 n2 (some "cube")).1.managedObjects)
      "cube" = some n2 ∧
    n1 ∈ (addObject (addObject s n1 (some "cube")).1 n2 (some "cube")).1.scene.children ∧
    n2 ∈ (addObject (addObject s n1 (some "cube")).1 n2 (some "cube")).1.scene.children := by
  refine ⟨?_, ?_, ?_⟩
  · simp [addObject]
    exact mapGet_mapSet_self _ _ _
  · simp only [addObject]
    exact mem_sceneAdd_of_mem (mem_sceneAdd_self _ _)
  · simp only [addObject]
    exact mem_sceneAdd_self _ _

/-- Witness for `addObject_reuse_identifier` on two concrete distinct nodes. -/
theorem addObject_reuse_identifier_witness :
    exCube ≠ exBall ∧
    (mapGet ((addObject (addObject exScene0 exCube (some "cube")).1 exBall
        (some "cube")).1.managedObjects) "cube" = some exBall ∧
     exCube ∈ (addObject (addObject exScene0 exCube (some "cube")).1 exBall
        (some "cube")).1.scene.children ∧
     exBall ∈ (addObject (addObject exScene0 exCube (some "cube")).1 exBall
        (some "cube")).1.scene.children) :=
  ⟨by decide, addObject_reuse_identifier exScene0 exCube exBall (by decide)⟩

/-- C4, counterexample: the camera dispatch does not fail fast — the
unrecognized tag `"bogus"` silently produces the default (orthographic)
variant, the exact behavior the claim forbids. -/
theorem camera_unknown_tag_cex :
    ("bogus" ≠ "perspective" ∧ "bogus" ≠ "orthographic") ∧
    exBogusCameraConfig.type = "bogus" ∧
    (createCamera defaultStore exBogusCameraConfig).1.projection.isPerspective = false ∧
    (createCamera defaultStore exBogusCameraConfig).1.projection
      = (createCamera defaultStore
          { exBogusCameraConfig with type := "orthographic" }).1.projection := by
  refine ⟨⟨by decide, by decide⟩, rfl, by decide, rfl⟩

/-- C4 (amended): the geometry and material factories fail fast on every
unrecognized variant tag with an error naming it, but camera construction
instead maps every tag other than `"perspective"` — unrecognized tags
included — silently to the orthographic variant. -/
theorem factory_unknown_variant_handling (tg tm : String)
    (cg : GeometryConfigData) (cm : MaterialConfigData)
    (store : List Vec3) (cc : CameraConfig)
    (hg : tg ∉ (["box", "sphere", "cone", "cylinder", "torus", "plane"] : List String))
    (hm : tm ∉ (["basic", "lambert", "phong", "standard"] : List String))
    (hc : cc.type ≠ "perspective") :
    createGeometry tg cg = Except.error ("Unsupported geometry type: " ++ tg) ∧
    createMaterial tm cm = Except.error ("Unsupported material type : " ++ tm) ∧
    (createCamera store cc).1.projection
      = CameraProjection.orthographic (-1) 1 1 (-1) cc.near cc.far := by
  simp only [List.mem_cons, List.mem_singleton, not_or] at hg hm
  obtain ⟨g1, g2, g3, g4, g5, g6⟩ := hg
  obtain ⟨m1, m2, m3, m4⟩ := hm
  refine ⟨?_, ?_, ?_⟩
  · simp [createGeometry, g1, g2, g3, g4, g5, g6]
  · simp [createMaterial, m1, m2, m3, m4]
  · simp [createCamera, hc]

/-- Witness for `factory_unknown_variant_handling` at concrete unrecognized
tags. -/
theorem factory_unknown_variant_handling_witness :
    ("blob" ∉ (["box", "sphere", "cone", "cylinder", "torus", "plane"] : List String)) ∧
    ("shiny" ∉ (["basic", "lambert", "phong", "standard"] : List String)) ∧
    exBogusCameraConfig.type ≠ "perspective" ∧
    (createGeometry "blob" {} = Except.error ("Unsupported geometry type: " ++ "blob") ∧
     createMaterial "shiny" {} = Except.error ("Unsupported material type : " ++ "shiny") ∧
     (createCamera defaultStore exBogusCameraConfig).1.projection
       = CameraProjection.orthographic (-1) 1 1 (-1) exBogusCameraConfig.near
           exBogusCameraConfig.far) :=
  ⟨by decide, by decide, by decide,
   factory_unknown_variant_handling "blob" "shiny" {} {} defaultStore exBogusCameraConfig
     (by decide) (by decide) (by decide)⟩

/-- C5: a complete perspective configuration yields a camera of the
perspective kind reporting fov/aspect/near/far unchanged, with its position
stored in a fresh slot (copied, not aliased) holding the same value as the
config's position vector, and oriented to the supplied target. -/
theorem createCamera_perspective_complete (store : List Vec3) (cfg : CameraConfig)
    (fov aspect : Rat) (ht : cfg.type = "perspective") (hf : cfg.fov = some fov)
    (ha : cfg.aspect = some aspect) (hp : cfg.positionIdx < store.length) :
    (createCamera store cfg).1.projection
      = CameraProjection.perspective fov aspect cfg.near cfg.far ∧
    (createCamera store cfg).1.positionIdx ≠ cfg.positionIdx ∧
    storeGet (createCamera store cfg).2 ((createCamera store cfg).1.positionIdx)
      = storeGet store cfg.positionIdx ∧
    (createCamera store cfg).1.lookTarget = cfg.target := by
  refine ⟨?_, ?_, ?_, ?_⟩
  · simp [createCamera, ht, hf, ha]
  · simp only [createCamera]
    exact fun hcontra => absurd (hcontra ▸ hp) (lt_irrefl _)
  · simp only [createCamera, storeGet]
    simp [List.getD_eq_getElem?_getD, List.getElem?_concat_length]
  · rfl

/-- Witness for `createCamera_perspective_complete` at the spec's scenario
configuration. -/
theorem createCamera_perspective_complete_witness :
    exPerspectiveConfig.type = "perspective" ∧ exPerspectiveConfig.fov = some 75 ∧
    exPerspectiveConfig.aspect = some (16/9) ∧
    exPerspectiveConfig.positionIdx < defaultStore.length ∧
    ((createCamera defaultStore exPerspectiveConfig).1.projection
       = CameraProjection.perspective 75 (16/9) exPerspectiveConfig.near
           exPerspectiveConfig.far ∧
     (createCamera defaultStore exPerspectiveConfig).1.positionIdx
       ≠ exPerspectiveConfig.positionIdx ∧
     storeGet (createCamera defaultStore exPerspectiveConfig).2
         ((createCamera defaultStore exPerspectiveConfig).1.positionIdx)
       = storeGet defaultStore exPerspectiveConfig.positionIdx ∧
     (createCamera defaultStore exPerspectiveConfig).1.lookTarget
       = exPerspectiveConfig.target) :=
  ⟨rfl, rfl, rfl, by decide,
   createCamera_perspective_complete defaultStore exPerspectiveConfig 75 (16/9)
     rfl rfl rfl (by decide)⟩

/-- C6, counterexample: in `exAttached` the node `exCube` is already attached;
`addObject exCube` (which re-attaches without duplicating) followed by
`removeObject` with the returned id returns `true` but drops the scene
children count from 1 to 0 — not net zero. -/
theorem add_remove_not_net_zero_cex :
    (removeObject (addObject exAttached exCube none).1
      (addObject exAttached exCube none).2).2 = true ∧
    (removeObject (addObject exAttached exCube none).1
      (addObject exAttached exCube none).2).1.scene.children.length = 0 ∧
    exAttached.scene.children.length = 1 := by
  decide

/-- C6 (amended): for every manager state and every node **not already
attached to the scene graph**, `addObject` followed by `removeObject` with
the returned identifier yields `true` and leaves the scene graph's object
count unchanged. -/
theorem addObject_removeObject_net_zero {κ : Type} (s : FoundationScene κ)
    (n : Object3D) (id : Option String) (h : n ∉ s.scene.children) :
    (removeObject (addObject s n id).1 (addObject s n id).2).2 = true ∧
    (removeObject (addObject s n id).1 (addObject s n id).2).1.scene.children.length
      = s.scene.children.length := by
  have hch : (addObject s n id).1.scene.children = s.scene.children ++ [n] := by
    simp [addObject, sceneAdd_of_not_mem h]
  have hget : mapGet (addObject s n id).1.managedObjects (addObject s n id).2
      = some n := by
    simp only [addObject]
    exact mapGet_mapSet_self _ _ _
  constructor
  · simp [removeObject, hget]
  · simp only [removeObject, hget, hch]
    rw [List.erase_append_right _ h, List.erase_cons_head]
    simp

/-- Witness for `addObject_removeObject_net_zero` on a fresh manager and
node. -/
theorem addObject_removeObject_net_zero_witness :
    exCube ∉ exScene0.scene.children ∧
    ((removeObject (addObject exScene0 exCube none).1
        (addObject exScene0 exCube none).2).2 = true ∧
     (removeObject (addObject exScene0 exCube none).1
        (addObject exScene0 exCube none).2).1.scene.children.length
       = exScene0.scene.children.length) :=
  ⟨by decide, addObject_removeObject_net_zero exScene0 exCube none (by decide)⟩

/-- C7: from a state with no active frame loop, the first `startAnimation`
schedules exactly one frame callback, and a second `startAnimation` is a
complete no-op (manager state and scheduler both unchanged). -/
theorem startAnimation_twice_single_loop {κ : Type} (s : FoundationScene κ)
    (sch : FrameScheduler) (now now' : Rat) (h : s.animationId = none) :
    startAnimation (startAnimation s sch now).1 (startAnimation s sch now).2 now'
      = startAnimation s sch now ∧
    (startAnimation s sch now).2.pending.length = sch.pending.length + 1 := by
  have e : startAnimation s sch now =
      ({ s with animationId := some sch.nextHandle, clock := (clockGetDelta s.clock now).1 },
       { nextHandle := sch.nextHandle + 1, pending := sch.pending ++ [sch.nextHandle] }) := by
    simp [startAnimation, h, requestFrame]
  constructor
  · rw [e]
    simp [startAnimation]
  · rw [e]
    simp

/-- Witness for `startAnimation_twice_single_loop` on the fresh manager. -/
theorem startAnimation_twice_single_loop_witness :
    exScene0.animationId = none ∧
    (startAnimation (startAnimation exScene0 exSched0 0).1
        (startAnimation exScene0 exSched0 0).2 16
      = startAnimation exScene0 exSched0 0 ∧
     (startAnimation exScene0 exSched0 0).2.pending.length
       = exSched0.pending.length + 1) :=
  ⟨by decide, startAnimation_twice_single_loop exScene0 exSched0 0 16 (by decide)⟩

/-- C8: `removeObject` on an identifier with no registry entry returns `false`
and leaves the whole manager state unchanged (the call is the identity on the
state). -/
theorem removeObject_unknown_id {κ : Type} (s : FoundationScene κ) (id : String)
    (h : mapGet s.managedObjects id = none) :
    removeObject s id = (s, false) := by
  simp [removeObject, h]

/-- Witness for `removeObject_unknown_id` on a never-inserted identifier. -/
theorem removeObject_unknown_id_witness :
    mapGet exScene0.managedObjects "ghost" = none ∧
    removeObject exScene0 "ghost" = (exScene0, false) :=
  ⟨by decide, removeObject_unknown_id exScene0 "ghost" (by decide)⟩

/-- C9: passing the empty string as the identifier behaves exactly like
omitting it (JS `id || object.uuid` treats `""` as falsy): the call returns
the node's uuid and registers the node under that uuid. -/
theorem addObject_empty_string_id {κ : Type} (s : FoundationScene κ) (n : Object3D) :
    addObject s n (some "") = addObject s n none ∧
    (addObject s n (some "")).2 = n.uuid ∧
    mapGet (addObject s n (some "")).1.managedObjects n.uuid = some n := by
  refine ⟨?_, ?_, ?_⟩
  · simp [addObject]
  · simp [addObject]
  · simp only [addObject]
    simp only [reduceIte]
    exact mapGet_mapSet_self _ _ _

/-- C10, counterexample: in `exAliased` one node is registered under both
`"a"` and `"b"` and the registry-membership invariant holds; after
`removeObject "a"` the node is detached while still registered under `"b"`,
so the invariant is not preserved by `removeObject`. -/
theorem registry_inv_not_preserved_cex :
    RegistryInv exAliased ∧ ¬ RegistryInv (removeObject exAliased "a").1 := by
  decide

/-- C10 (amended): the registry-membership invariant (every registered node is
attached to the scene graph) holds initially and is preserved by `addObject`,
`addAnimation`, `removeAnimation`, `startAnimation`, `stopAnimation` and
`dispose`; `removeObject` preserves it provided the registry keys are
pairwise distinct (as with a real `Map`) and no node is registered under two
identifiers — with aliased registrations it can break (see the
counterexample). -/
theorem registry_scene_membership_invariant (κ : Type) :
    (∀ (w : WindowState) (store : List Vec3) (u : PartialFoundationSceneConfig),
      RegistryInv (newFoundationScene κ w store u).1) ∧
    (∀ (s : FoundationScene κ) (n : Object3D) (id : Option String),
      RegistryInv s → RegistryInv (addObject s n id).1) ∧
    (∀ (s : FoundationScene κ) (id : String) (fn : κ),
      RegistryInv s → RegistryInv (addAnimation s id fn)) ∧
    (∀ (s : FoundationScene κ) (id : String),
      RegistryInv s → RegistryInv (removeAnimation s id)) ∧
    (∀ (s : FoundationScene κ) (sch : FrameScheduler) (now : Rat),
      RegistryInv s → RegistryInv (startAnimation s sch now).1) ∧
    (∀ (s : FoundationScene κ) (sch : FrameScheduler),
      RegistryInv s → RegistryInv (stopAnimation s sch).1) ∧
    (∀ (s : FoundationScene κ) (sch : FrameScheduler),
      RegistryInv s → RegistryInv (dispose s sch).1) ∧
    (∀ (s : FoundationScene κ) (id : String),
      RegistryInv s → (s.managedObjects.map Prod.fst).Nodup →
      (∀ kv1 ∈ s.managedObjects, ∀ kv2 ∈ s.managedObjects,
        kv1.2 = kv2.2 → kv1.1 = kv2.1) →
      RegistryInv (removeObject s id).1) := by
  refine ⟨?_, ?_, ?_, ?_, ?_, ?_, ?_, ?_⟩
  · intro w store u kv hkv
    simp [newFoundationScene] at hkv
  · intro s n id hinv kv hkv
    simp only [addObject] at hkv ⊢
    rcases mem_mapSet_cases hkv with he | hm
    · rw [he]
      exact mem_sceneAdd_self _ _
    · exact mem_sceneAdd_of_mem (hinv kv hm)
  · intro s id fn hinv
    exact hinv
  · intro s id hinv
    exact hinv
  · intro s sch now hinv kv hkv
    have hf := startAnimation_fields s sch now
    rw [hf.2]
    exact hinv kv (hf.1 ▸ hkv)
  · intro s sch hinv kv hkv
    have hf := stopAnimation_fields s sch
    rw [hf.2]
    exact hinv kv (hf.1 ▸ hkv)
  · intro s sch hinv kv hkv
    by_cases h : s.isDisposed
    · simp only [dispose, if_pos h] at hkv ⊢
      exact hinv kv hkv
    · simp [dispose, h] at hkv
  · intro s id hinv hnd hinj kv hkv
    cases hget : mapGet s.managedObjects id with
    | none =>
        simp only [removeObject, hget] at hkv ⊢
        exact hinv kv hkv
    | some o =>
        simp only [removeObject, hget] at hkv ⊢
        have hkvm : kv ∈ s.managedObjects := mem_of_mem_mapDelete hkv
        have hio : (id, o) ∈ s.managedObjects := mapGet_eq_some_mem hget
        by_cases hvo : kv.2 = o
        · exact absurd (hinj kv hkvm (id, o) hio hvo)
            (key_ne_of_mem_mapDelete hnd hkv)
        · exact (List.mem_erase_of_ne hvo).2 (hinv kv hkvm)

/-- Witness for the `removeObject` conjunct of
`registry_scene_membership_invariant` at a concrete alias-free manager. -/
theorem registry_scene_membership_invariant_witness :
    RegistryInv (removeObject exAttached "a").1 :=
  (registry_scene_membership_invariant Nat).2.2.2.2.2.2.2 exAttached "a"
    (by decide) (by decide) (by decide)

end ThreeFoundation
